import Mathlib

/-!
Verification development for the e-commerce recommendation engine
(React frontend `frontend/src/App.js`, API layer
`frontend/src/services/api.js`, and the Django/Python engine code
documented alongside it: `score_map`, `apply_time_decay`,
`MatrixFactorizationModel.fit`, `get_recommendations`,
`ABTestFramework.assign_user_to_variant`).

Machine integers are modelled as `Nat` with explicit `% 2 ^ 32`
where the source relies on 32-bit wraparound (the md5 hash), and
real/floating-point arithmetic is modelled over `ℚ` (exact) or `ℝ`
(for the exponential time decay).
-/

namespace RecEngine

/-- A catalog product, from `sampleProducts` in `App.js` (id, name,
category, price; the display-only fields are omitted). -/
structure Product where
  id : Nat
  name : String
  category : String
  price : ℚ
  deriving Repr, DecidableEq

/-- A recorded user-item interaction (`UserBehavior` rows / the
`newBehavior` objects built by `recordAdvancedInteraction`). -/
structure Behavior where
  user_id : Nat
  product_id : Nat
  interaction_type : String
  timestamp : Nat
  deriving Repr, DecidableEq

/-- An entry of the shopping cart: a product together with a
quantity, as created by `addToCart` in `App.js`. -/
structure CartItem where
  id : Nat
  name : String
  price : ℚ
  quantity : Nat
  deriving Repr, DecidableEq

/-- One element of the list returned by the engine's
`get_recommendations` (the dict with product_id, product_name,
category, price, confidence_score). -/
structure RecEntry where
  product_id : Nat
  product_name : String
  category : String
  price : ℚ
  confidence_score : ℚ
  deriving Repr, DecidableEq

/-! ### Stable descending sort

The engine ranks candidates with Python's
`sorted(zip(candidates, final_scores), key=lambda x: x[1], reverse=True)`.
Python's `sorted` is stable: elements with equal keys keep their
original relative order, and `reverse=True` sorts by key descending.
`sortDesc` reproduces exactly this semantics (stable, descending). -/

/-- Insert `x` into a descending-sorted list, before the first element
whose key is less than or equal to `key x`. `sortDesc` inserts earlier
input elements into the sorted suffix of later ones, so placing `x`
before equal-key elements is exactly Python's stability guarantee. -/
def insertDesc (key : α → ℚ) (x : α) : List α → List α
  | [] => [x]
  | y :: ys => if key y ≤ key x then x :: y :: ys else y :: insertDesc key x ys

/-- Stable descending sort by `key` (the semantics of Python's
`sorted(..., key=key, reverse=True)`). -/
def sortDesc (key : α → ℚ) : List α → List α
  | [] => []
  | x :: xs => insertDesc key x (sortDesc key xs)

/-! ### The recommendation engine serving path

Embeds `get_recommendations(self, user_id, num_recommendations=10)`
from `recommendation_engine.py` as documented in `App.js`:

```
cache_key = f"recommendations_user_.._{n}"; cached = cache.get(key)
if cached: return cached
user_interactions = UserBehavior.objects.filter(user_id=user_id)
interacted_products = user_interactions.values_list('product_id', flat=True)
candidates = Product.objects.exclude(id__in=interacted_products)
cf_scores = ...predict; mf_scores = ...predict
final_scores = 0.7 * cf_scores + 0.3 * mf_scores
ranked_products = sorted(zip(candidates, final_scores), key=lambda x: x[1], reverse=True)
top_products = ranked_products[:num_recommendations]
recommendations = [format...]; cache.set(cache_key, recommendations, 1800)
```

The database tables become explicit lists, the two model `predict`
calls become score-function parameters, and the Python cache key
string `recommendations_user_{user_id}_{num_recommendations}` is
carried as the pair of its two variable components. -/

/-- Cache keys: the Python string key `recommendations_user_u_n`
determined by the pair (user_id, num_recommendations). -/
abbrev CacheKey := Nat × Nat

abbrev Cache := List (CacheKey × List RecEntry)

def cacheGet (cache : Cache) (k : CacheKey) : Option (List RecEntry) :=
  (cache.find? (fun e => e.1 = k)).map (·.2)

def cacheSet (cache : Cache) (k : CacheKey) (v : List RecEntry) : Cache :=
  (k, v) :: cache.filter (fun e => ¬ e.1 = k)

/-- The pure cache-miss computation of `get_recommendations`:
candidate selection, 0.7/0.3 ensemble blending, stable descending
sort, truncation and formatting. -/
def computeRecs (user_id num_recommendations : Nat)
    (behaviors : List Behavior) (products : List Product)
    (cf_score mf_score : Nat → Nat → ℚ) : List RecEntry :=
  let user_interactions := behaviors.filter (fun b => b.user_id = user_id)
  let interacted_products := user_interactions.map (·.product_id)
  let candidates := products.filter (fun p => ¬ interacted_products.contains p.id)
  let scored := candidates.map
    (fun p => (p, (7 : ℚ) / 10 * cf_score user_id p.id + (3 : ℚ) / 10 * mf_score user_id p.id))
  let ranked_products := sortDesc Prod.snd scored
  let top_products := ranked_products.take num_recommendations
  top_products.map (fun t =>
    { product_id := t.1.id, product_name := t.1.name, category := t.1.category,
      price := t.1.price, confidence_score := t.2 })

/-- `get_recommendations`: serve from cache on a hit, otherwise
compute via `computeRecs`, store under the request's key and return.
Returns the response together with the updated cache. -/
def get_recommendations (user_id num_recommendations : Nat)
    (behaviors : List Behavior) (products : List Product)
    (cf_score mf_score : Nat → Nat → ℚ) (cache : Cache) :
    List RecEntry × Cache :=
  match cacheGet cache (user_id, num_recommendations) with
  | some cached => (cached, cache)
  | none =>
    let recommendations :=
      computeRecs user_id num_recommendations behaviors products cf_score mf_score
    (recommendations, cacheSet cache (user_id, num_recommendations) recommendations)

/-- State shared by interaction recording and serving: the interaction
store plus the recommendation cache. -/
structure EngineState where
  behaviors : List Behavior
  cache : Cache

/-- Modelled from the spec: the body of the engine's
`record_interaction` (invoked by `InteractionAPIView.post` after
`UserBehavior.objects.create`) is not present in the source tree —
only its callers and the retraining task's `cache.delete_pattern`
are. Per the spec, recording an interaction appends it to the store
and invalidates every cache entry keyed to that user_id, regardless
of requested count. -/
def record_interaction (s : EngineState) (b : Behavior) : EngineState :=
  { behaviors := s.behaviors ++ [b],
    cache := s.cache.filter (fun e => ¬ e.1.1 = b.user_id) }

/-! ### Frontend demo (`App.js`) -/

/-- The five demo catalog entries (`sampleProducts`, App.js lines
26-57), restricted to id/name/category/price. -/
def sampleProducts : List Product :=
  [ { id := 1, name := "Wireless Bluetooth Headphones", category := "Electronics", price := 9999/100 },
    { id := 2, name := "Smart Fitness Watch", category := "Electronics", price := 19999/100 },
    { id := 3, name := "Organic Cotton T-Shirt", category := "Clothing", price := 2999/100 },
    { id := 4, name := "Premium Coffee Beans", category := "Food", price := 2499/100 },
    { id := 5, name := "Yoga Mat Pro", category := "Sports", price := 5999/100 } ]

/-- `generateAdvancedRecommendations` (App.js lines 184-206): the
demo recommendation list is `sampleProducts.slice(0, 6)` decorated
with random confidences — the products shown depend only on the
catalog, never on the requesting user's behavior, and no count or
exclude-purchased parameter exists. The `Math.random()` confidence
stream is injected as a function of the element's position. -/
def generateAdvancedRecommendations (products : List Product)
    (confidence : Nat → ℚ) : List (Product × ℚ) :=
  (products.take 6).enum.map (fun t => (t.2, confidence t.1))

/-- The product ids user `uid` has purchased according to the
behavior log (the `type === 'purchase'` rows). -/
def purchasedIds (behaviors : List Behavior) (uid : Nat) : List Nat :=
  (behaviors.filter
    (fun b => b.user_id = uid ∧ b.interaction_type = "purchase")).map (·.product_id)

/-- `recordAdvancedInteraction` (App.js lines 208-224): returns the
behavior log unchanged when nobody is logged in, otherwise appends
the new interaction — for any `type` string, with no validation
against the interaction-weight table. (The conditional model-refresh
side effect for purchase/cart/wishlist is UI-only and not part of the
store update.) -/
def recordAdvancedInteraction (currentUser : Option Nat)
    (behaviors : List Behavior) (productId : Nat) (ty : String)
    (timestamp : Nat) : List Behavior :=
  match currentUser with
  | none => behaviors
  | some uid => behaviors ++ [⟨uid, productId, ty, timestamp⟩]

/-- `addToCart` (App.js lines 226-238): if an entry with the product's
id exists, bump the quantity of every matching entry via `cart.map`;
otherwise append the product with quantity 1. -/
def addToCart (cart : List CartItem) (product : Product) : List CartItem :=
  match cart.find? (fun item => item.id = product.id) with
  | some _ =>
      cart.map (fun item =>
        if item.id = product.id then { item with quantity := item.quantity + 1 } else item)
  | none =>
      cart ++ [{ id := product.id, name := product.name, price := product.price, quantity := 1 }]

/-! ### API layer (`services/api.js`) and the interaction endpoint -/

/-- The observable outcome of a `fetch` call: either a response (with
its `ok` flag and status) or a network-level rejection. -/
inductive FetchOutcome (β : Type) where
  | success (ok : Bool) (status : Nat) (body : β)
  | networkError (msg : String)
  deriving Repr, DecidableEq

/-- `ApiService.request` (api.js lines 7-27): on a non-ok response it
throws `HTTP error! status: ...`; on a network error it logs and
rethrows. Both failure modes propagate to the caller as `Except.error`;
only an ok response yields the parsed body. -/
def ApiService.request : FetchOutcome β → Except String β
  | .success ok status body =>
      if ok then .ok body
      else .error ("HTTP error! status: " ++ toString status)
  | .networkError msg => .error msg

/-- Response shape of the search endpoint used by `getAllProducts`. -/
structure SearchResult where
  products : List Product
  count : Nat
  deriving Repr, DecidableEq

/-- The hard-coded sample fallback of `getAllProducts`
(api.js lines 64-73). -/
def fallbackResult : SearchResult :=
  { products :=
      [ { id := 1, name := "Wireless Bluetooth Headphones", category := "Electronics", price := 9999/100 },
        { id := 2, name := "Smart Fitness Watch", category := "Electronics", price := 19999/100 },
        { id := 3, name := "Organic Cotton T-Shirt", category := "Clothing", price := 2999/100 },
        { id := 4, name := "Premium Coffee Beans", category := "Food", price := 2499/100 },
        { id := 5, name := "Yoga Mat Pro", category := "Sports", price := 5999/100 } ],
    count := 5 }

/-- `ApiService.getAllProducts` (api.js lines 59-75): forwards the
result of `searchProducts('')` on success and swallows any error,
returning the fixed sample payload instead. The argument is the
outcome of the underlying search request. -/
def ApiService.getAllProducts (outcome : FetchOutcome SearchResult) : SearchResult :=
  match ApiService.request outcome with
  | .ok r => r
  | .error _ => fallbackResult

/-- HTTP replies of `InteractionAPIView.post`. -/
inductive HttpReply where
  | created (msg : String)
  | badRequest (err : String)
  deriving Repr, DecidableEq

/-- `InteractionAPIView.post` (the Django view documented in App.js):
reads user_id, product_id and interaction_type from the request body;
`if not all([user_id, product_id, interaction_type])` replies 400
(note Python truthiness: a missing field, `0`, or `""` all fail the
check), otherwise creates the `UserBehavior` row — the
interaction_type value itself is never checked against the weight
table. -/
def interactionPost (user_id product_id : Option Nat)
    (interaction_type : Option String) (store : List Behavior) :
    HttpReply × List Behavior :=
  match user_id, product_id, interaction_type with
  | some u, some p, some t =>
      if u ≠ 0 ∧ p ≠ 0 ∧ t ≠ "" then
        (.created "Interaction recorded successfully", store ++ [⟨u, p, t, 0⟩])
      else
        (.badRequest "user_id, product_id, and interaction_type are required", store)
  | _, _, _ =>
      (.badRequest "user_id, product_id, and interaction_type are required", store)

/-! ### Feature engineering: interaction weights and time decay -/

/-- `score_map` (the interaction weight table): view=1, like=2,
cart=3, purchase=5; any other type is absent from the table. -/
def score_map : String → Option ℚ := fun t =>
  if t = "view" then some 1
  else if t = "like" then some 2
  else if t = "cart" then some 3
  else if t = "purchase" then some 5
  else none

/-- `apply_time_decay(score, timestamp, decay_factor=0.1)`:
`score * np.exp(-decay_factor * days_ago)` with
`days_ago = (now - timestamp).days`; the elapsed time is passed
directly. Floating point is modelled as exact real arithmetic. -/
noncomputable def apply_time_decay (score decay_factor days_ago : ℝ) : ℝ :=
  score * Real.exp (-(decay_factor * days_ago))

/-- Modelled from the spec: the Feature Builder's aggregation loop
(the code that turns the interaction log into `weight(u, i)` values)
is not present in the source tree — only the weight table
(`score_map`) and `apply_time_decay` are. Per the spec,
`weight(u,i) = Σ over u's interactions with i of
base_weight(type) · exp(−λ·Δt)`, summing repeated (user, item) pairs
rather than overwriting them. A type absent from the weight table
contributes base weight 0. -/
noncomputable def featureWeight (decay_factor now : ℝ)
    (ints : List Behavior) (u i : Nat) : ℝ :=
  ((ints.filter (fun b => b.user_id = u ∧ b.product_id = i)).map
    (fun b => apply_time_decay (((score_map b.interaction_type).getD 0 : ℚ) : ℝ)
      decay_factor (now - (b.timestamp : ℝ)))).sum

/-! ### Experiment routing: `ABTestFramework.assign_user_to_variant`

The source assigns variants with
`hashlib.md5(f"{user_id}_{experiment_name}".encode()).hexdigest()` and
`return "A" if int(hash_value, 16) % 2 == 0 else "B"`. md5 is embedded
in full below over `Nat` with explicit 32-bit masking. -/

/-- The md5 round-constant table `K` (floor(abs(sin(i+1)) · 2^32)). -/
def md5K : List Nat :=
  [ 0xd76aa478, 0xe8c7b756, 0x242070db, 0xc1bdceee,
    0xf57c0faf, 0x4787c62a, 0xa8304613, 0xfd469501,
    0x698098d8, 0x8b44f7af, 0xffff5bb1, 0x895cd7be,
    0x6b901122, 0xfd987193, 0xa679438e, 0x49b40821,
    0xf61e2562, 0xc040b340, 0x265e5a51, 0xe9b6c7aa,
    0xd62f105d, 0x02441453, 0xd8a1e681, 0xe7d3fbc8,
    0x21e1cde6, 0xc33707d6, 0xf4d50d87, 0x455a14ed,
    0xa9e3e905, 0xfcefa3f8, 0x676f02d9, 0x8d2a4c8a,
    0xfffa3942, 0x8771f681, 0x6d9d6122, 0xfde5380c,
    0xa4beea44, 0x4bdecfa9, 0xf6bb4b60, 0xbebfbc70,
    0x289b7ec6, 0xeaa127fa, 0xd4ef3085, 0x04881d05,
    0xd9d4d039, 0xe6db99e5, 0x1fa27cf8, 0xc4ac5665,
    0xf4292244, 0x432aff97, 0xab9423a7, 0xfc93a039,
    0x655b59c3, 0x8f0ccc92, 0xffeff47d, 0x85845dd1,
    0x6fa87e4f, 0xfe2ce6e0, 0xa3014314, 0x4e0811a1,
    0xf7537e82, 0xbd3af235, 0x2ad7d2bb, 0xeb86d391 ]

/-- The md5 per-round left-rotation amounts. -/
def md5S : List Nat :=
  [ 7, 12, 17, 22, 7, 12, 17, 22, 7, 12, 17, 22, 7, 12, 17, 22,
    5,  9, 14, 20, 5,  9, 14, 20, 5,  9, 14, 20, 5,  9, 14, 20,
    4, 11, 16, 23, 4, 11, 16, 23, 4, 11, 16, 23, 4, 11, 16, 23,
    6, 10, 15, 21, 6, 10, 15, 21, 6, 10, 15, 21, 6, 10, 15, 21 ]

def mask32 : Nat := 4294967295

/-- 32-bit left rotation (inputs below `2 ^ 32`). -/
def rotl32 (x s : Nat) : Nat :=
  ((x <<< s) ||| (x >>> (32 - s))) &&& mask32

/-- md5 padding: append `0x80`, zero-fill to 56 mod 64, then the
original bit length as 8 little-endian bytes. -/
def md5Pad (msg : List Nat) : List Nat :=
  let len := msg.length
  let zeros := (119 - len % 64) % 64
  let bitLen := (len * 8) % (2 ^ 64)
  msg ++ [0x80] ++ List.replicate zeros 0 ++
    (List.range 8).map (fun j => (bitLen >>> (8 * j)) &&& 0xff)

/-- Word `g` of a 64-byte block, little-endian. -/
def md5Word (block : List Nat) (g : Nat) : Nat :=
  block.getD (4 * g) 0 + (block.getD (4 * g + 1) 0) <<< 8 +
    (block.getD (4 * g + 2) 0) <<< 16 + (block.getD (4 * g + 3) 0) <<< 24

/-- One of the 64 md5 rounds on the state `(a, b, c, d)`. -/
def md5Round (block : List Nat) (st : Nat × Nat × Nat × Nat) (i : Nat) :
    Nat × Nat × Nat × Nat :=
  let (a, b, c, d) := st
  let f :=
    if i < 16 then (b &&& c) ||| ((mask32 ^^^ b) &&& d)
    else if i < 32 then (d &&& b) ||| ((mask32 ^^^ d) &&& c)
    else if i < 48 then b ^^^ c ^^^ d
    else c ^^^ (b ||| (mask32 ^^^ d))
  let g :=
    if i < 16 then i
    else if i < 32 then (5 * i + 1) % 16
    else if i < 48 then (3 * i + 5) % 16
    else (7 * i) % 16
  let f' := (f + a + md5K.getD i 0 + md5Word block g) &&& mask32
  (d, (b + rotl32 f' (md5S.getD i 0)) &&& mask32, b, c)

/-- Process one 64-byte block and add the result into the state. -/
def md5Block (st : Nat × Nat × Nat × Nat) (block : List Nat) :
    Nat × Nat × Nat × Nat :=
  let (a0, b0, c0, d0) := st
  let (a, b, c, d) := (List.range 64).foldl (md5Round block) st
  ((a0 + a) &&& mask32, (b0 + b) &&& mask32, (c0 + c) &&& mask32, (d0 + d) &&& mask32)

/-- The 16 digest bytes of an md5 run over a byte string (the bytes
spelled by `hexdigest()` in order). -/
def md5Digest (msg : List Nat) : List Nat :=
  let padded := md5Pad msg
  let nBlocks := padded.length / 64
  let st := (List.range nBlocks).foldl
    (fun st i => md5Block st ((padded.drop (64 * i)).take 64))
    (0x67452301, 0xefcdab89, 0x98badcfe, 0x10325476)
  let (a, b, c, d) := st
  [a, b, c, d].flatMap (fun w => (List.range 4).map (fun j => (w >>> (8 * j)) &&& 0xff))

/-- `int(hexdigest, 16)`: the digest read as one big-endian integer. -/
def md5Int (msg : List Nat) : Nat :=
  (md5Digest msg).foldl (fun acc byte => acc * 256 + byte) 0

def hexChar (n : Nat) : Char := "0123456789abcdef".data.getD n '0'

/-- `hexdigest()` as a lowercase hex string. -/
def md5Hex (msg : List Nat) : String :=
  ⟨(md5Digest msg).flatMap (fun b => [hexChar (b / 16), hexChar (b % 16)])⟩

/-- The bytes of a string (the source strings are ASCII-only). -/
def strBytes (s : String) : List Nat := s.data.map Char.toNat

/-- `ABTestFramework.assign_user_to_variant`: md5 the key
`f"{user_id}_{experiment_name}"` and pick variant "A" on an even
digest, "B" otherwise. No traffic-allocation table is consulted. -/
def assign_user_to_variant (user_id : Nat) (experiment_name : String) : String :=
  let key := toString user_id ++ "_" ++ experiment_name
  if md5Int (strBytes key) % 2 = 0 then "A" else "B"

/-- `assign_user_to_variant` with an explicit repeated-call index: the
source assignment reads nothing besides its two arguments, so the call
index is necessarily ignored. -/
def assignOnCall (_call_index user_id : Nat) (experiment_name : String) : String :=
  assign_user_to_variant user_id experiment_name

/-- Modelled from the spec: the spec's assignment mechanism — "a
stable hash reduced modulo 10000 and mapped into cumulative
traffic_allocation buckets". Walks the allocation list consuming the
bucket fraction; defined to compare against the source's
`assign_user_to_variant`. -/
def bucketAssign : List (String × ℚ) → ℚ → String
  | [], _ => ""
  | (variant, w) :: rest, bucket =>
      if bucket < w then variant else bucketAssign rest (bucket - w)

/-- Modelled from the spec: full spec-side assignment — the stable
hash of `(user_id, experiment_name)` reduced modulo 10000 and mapped
into the experiment's cumulative traffic_allocation buckets. -/
def specAssignVariant (traffic_allocation : List (String × ℚ))
    (user_id : Nat) (experiment_name : String) : String :=
  let h := md5Int (strBytes (toString user_id ++ "_" ++ experiment_name)) % 10000
  bucketAssign traffic_allocation ((h : ℚ) / 10000)

/-! ### Factor trainer: `MatrixFactorizationModel.fit`

The SGD loop of `fit(self, df, epochs=20)`: random small-variance
initialization of `user_factors`/`item_factors`, then for each epoch
and each `(user_idx, item_idx, rating)` triple the symmetric update
`param += learning_rate * (error * other_factor - regularization * param)`
computed against copies of the pre-update vectors. Floats are
modelled as exact rationals. -/

structure FactorSnapshot where
  user_factors : List (List ℚ)
  item_factors : List (List ℚ)
  deriving Repr, DecidableEq

/-- One step of a linear congruential generator; `lcgStream` below
stands in for the externally-provided `np.random.normal(0, 0.1, ...)`
draw under a fixed seed — determinism of training only needs the
initialization to be a fixed function of the seed, matching numpy's
seeded global RNG. -/
def lcg (x : Nat) : Nat := (1664525 * x + 1013904223) % 2 ^ 32

def lcgIter : Nat → Nat → Nat
  | 0, x => x
  | n + 1, x => lcg (lcgIter n x)

/-- A small-magnitude pseudo-random rational derived from the seed
(the `n`-th draw). -/
def lcgStream (seed n : Nat) : ℚ :=
  ((lcgIter (n + 1) seed : ℚ) - 2 ^ 31) / 2 ^ 36

/-- Seeded random `rows × cols` factor matrix. -/
def randMatrix (seed rows cols : Nat) : List (List ℚ) :=
  (List.range rows).map (fun r =>
    (List.range cols).map (fun c => lcgStream seed (r * cols + c)))

def dot (v w : List ℚ) : ℚ := (List.zipWith (fun a b => a * b) v w).sum

/-- `predict_single`: the dot product of the user and item factor
vectors. -/
def predict_single (snap : FactorSnapshot) (u i : Nat) : ℚ :=
  dot (snap.user_factors.getD u []) (snap.item_factors.getD i [])

/-- One SGD update for a `(user_idx, item_idx, rating)` triple. -/
def sgdStep (learning_rate regularization : ℚ) (snap : FactorSnapshot)
    (t : Nat × Nat × ℚ) : FactorSnapshot :=
  let u := t.1
  let i := t.2.1
  let rating := t.2.2
  let user_factor := snap.user_factors.getD u []
  let item_factor := snap.item_factors.getD i []
  let error := rating - predict_single snap u i
  { user_factors := snap.user_factors.set u
      (List.zipWith (fun p o => p + learning_rate * (error * o - regularization * p))
        user_factor item_factor),
    item_factors := snap.item_factors.set i
      (List.zipWith (fun p o => p + learning_rate * (error * o - regularization * p))
        item_factor user_factor) }

/-- `MatrixFactorizationModel.fit`: seeded random initialization
followed by `epochs` SGD passes over the training triples. -/
def MatrixFactorizationModel.fit (training_data : List (Nat × Nat × ℚ))
    (seed n_users n_items n_factors epochs : Nat)
    (learning_rate regularization : ℚ) : FactorSnapshot :=
  let init : FactorSnapshot :=
    { user_factors := randMatrix seed n_users n_factors,
      item_factors := randMatrix (lcg seed) n_items n_factors }
  (List.range epochs).foldl
    (fun snap _ => training_data.foldl (sgdStep learning_rate regularization) snap)
    init

/-- Total quantity carried by the cart entries for product id `i`
(observer used to state the `addToCart` contract). -/
def qtyOf (cart : List CartItem) (i : Nat) : Nat :=
  ((cart.filter (fun item => item.id = i)).map (·.quantity)).sum

/-- The quantity-bump applied by `addToCart` when the product is
already present. -/
def bumpQty (i : Nat) (item : CartItem) : CartItem :=
  if item.id = i then { item with quantity := item.quantity + 1 } else item

/-! ## Theorems -/

theorem perm_insertDesc (key : α → ℚ) (x : α) (l : List α) :
    List.Perm (insertDesc key x l) (x :: l) := by
  induction l with
  | nil => simp [insertDesc]
  | cons y ys ih =>
    simp only [insertDesc]
    split
    · exact List.Perm.refl _
    · exact ((ih.cons y).trans (List.Perm.swap x y ys))

theorem perm_sortDesc (key : α → ℚ) (l : List α) : List.Perm (sortDesc key l) l := by
  induction l with
  | nil => simp [sortDesc]
  | cons x xs ih =>
    exact (perm_insertDesc key x (sortDesc key xs)).trans (ih.cons x)

theorem pairwise_insertDesc (key : α → ℚ) (x : α) (l : List α)
    (h : l.Pairwise (fun a b => key b ≤ key a)) :
    (insertDesc key x l).Pairwise (fun a b => key b ≤ key a) := by
  induction l with
  | nil => simp [insertDesc]
  | cons y ys ih =>
    simp only [insertDesc]
    rcases List.pairwise_cons.mp h with ⟨hy, hys⟩
    split
    · rename_i hle
      refine List.pairwise_cons.mpr ⟨?_, h⟩
      intro b hb
      rcases List.mem_cons.mp hb with rfl | hb
      · exact hle
      · exact le_trans (hy _ hb) hle
    · rename_i hgt
      refine List.pairwise_cons.mpr ⟨?_, ih hys⟩
      intro b hb
      have hb' := (perm_insertDesc key x ys).mem_iff.mp hb
      rcases List.mem_cons.mp hb' with rfl | hb'
      · exact le_of_lt (lt_of_not_le hgt)
      · exact hy _ hb'

theorem pairwise_sortDesc (key : α → ℚ) (l : List α) :
    (sortDesc key l).Pairwise (fun a b => key b ≤ key a) := by
  induction l with
  | nil => simp [sortDesc]
  | cons x xs ih => exact pairwise_insertDesc key x (sortDesc key xs) ih

/-- Stability of `insertDesc`: restricted to any fixed key value `c`,
the inserted (earlier) element lands in front of every element with
key `c` already in the list, and other key classes are untouched. -/
theorem filter_insertDesc (key : α → ℚ) (x : α) (l : List α) (c : ℚ) :
    (insertDesc key x l).filter (fun a => decide (key a = c)) =
      if key x = c then x :: l.filter (fun a => decide (key a = c))
      else l.filter (fun a => decide (key a = c)) := by
  induction l with
  | nil =>
    by_cases hx : key x = c <;> simp [insertDesc, List.filter_cons, hx]
  | cons y ys ih =>
    simp only [insertDesc]
    by_cases hx : key x = c
    · rw [if_pos hx]
      split
      · simp [List.filter_cons, hx]
      · rename_i hgt
        have hy : ¬ (key y = c) := by
          intro h
          exact hgt (le_of_eq (h.trans hx.symm))
        rw [List.filter_cons, List.filter_cons, ih, if_pos hx]
        simp [hy]
    · rw [if_neg hx]
      split
      · simp [List.filter_cons, hx]
      · rw [List.filter_cons, List.filter_cons, ih, if_neg hx]

/-- Stability of `sortDesc`: elements sharing any key value `c` appear
in the output in exactly their input order. -/
theorem filter_sortDesc (key : α → ℚ) (l : List α) (c : ℚ) :
    (sortDesc key l).filter (fun a => decide (key a = c)) =
      l.filter (fun a => decide (key a = c)) := by
  induction l with
  | nil => simp [sortDesc]
  | cons x xs ih =>
    simp only [sortDesc, filter_insertDesc key x (sortDesc key xs) c]
    by_cases hx : key x = c
    · simp [hx, ih, List.filter_cons]
    · simp [hx, ih, List.filter_cons]

theorem map_bumpQty_id (cart : List CartItem) (i : Nat) :
    (cart.map (bumpQty i)).map (·.id) = cart.map (·.id) := by
  induction cart with
  | nil => rfl
  | cons x xs ih => by_cases hx : x.id = i <;> simp [bumpQty, hx, ih]

theorem map_bumpQty_of_not_mem (cart : List CartItem) (i : Nat)
    (h : i ∉ cart.map (·.id)) : cart.map (bumpQty i) = cart := by
  induction cart with
  | nil => rfl
  | cons x xs ih =>
    simp only [List.map_cons, List.mem_cons] at h
    push_neg at h
    have hx : ¬ x.id = i := fun hh => h.1 hh.symm
    simp [bumpQty, hx, ih h.2]

theorem qtyOf_cons (x : CartItem) (xs : List CartItem) (i : Nat) :
    qtyOf (x :: xs) i = (if x.id = i then x.quantity else 0) + qtyOf xs i := by
  by_cases hx : x.id = i <;> simp [qtyOf, List.filter_cons, hx]

theorem qtyOf_bump_eq (cart : List CartItem) (i : Nat)
    (hnodup : (cart.map (·.id)).Nodup) (hmem : i ∈ cart.map (·.id)) :
    qtyOf (cart.map (bumpQty i)) i = qtyOf cart i + 1 := by
  induction cart with
  | nil => simp at hmem
  | cons x xs ih =>
    simp only [List.map_cons, List.nodup_cons] at hnodup
    rw [List.map_cons, qtyOf_cons, qtyOf_cons]
    by_cases hx : x.id = i
    · have hxs : i ∉ xs.map (·.id) := by rw [← hx]; exact hnodup.1
      have hbx : bumpQty i x = { x with quantity := x.quantity + 1 } := by
        simp [bumpQty, hx]
      rw [hbx, map_bumpQty_of_not_mem xs i hxs]
      simp [hx]
      omega
    · have hmem' : i ∈ xs.map (·.id) := by
        rcases List.mem_cons.mp hmem with h | h
        · exact absurd h.symm hx
        · exact h
      have hbx : bumpQty i x = x := by simp [bumpQty, hx]
      rw [hbx, if_neg hx, ih hnodup.2 hmem']
      omega

theorem qtyOf_bump_ne (cart : List CartItem) (i j : Nat) (hij : j ≠ i) :
    qtyOf (cart.map (bumpQty i)) j = qtyOf cart j := by
  induction cart with
  | nil => rfl
  | cons x xs ih =>
    rw [List.map_cons, qtyOf_cons, qtyOf_cons]
    by_cases hxj : x.id = j
    · have hx : ¬ x.id = i := fun hh => hij (hxj.symm.trans hh)
      have hbx : bumpQty i x = x := by simp [bumpQty, hx]
      rw [hbx]
      simp [hxj, ih]
    · have hid : (bumpQty i x).id = x.id := by
        by_cases hx : x.id = i <;> simp [bumpQty, hx]
      rw [hid]
      simp [hxj, ih]

theorem find?_id_isSome (cart : List CartItem) (i : Nat) :
    (cart.find? (fun item => item.id = i)).isSome ↔ i ∈ cart.map (·.id) := by
  induction cart with
  | nil => simp
  | cons x xs ih =>
    by_cases hx : x.id = i
    · simp [List.find?_cons, hx]
    · have hx' : ¬ i = x.id := fun h => hx h.symm
      simp [List.find?_cons, hx, ih, hx']

/-- On a cache miss, serving reduces to the pure computation. -/
theorem get_recommendations_miss (uid n : Nat) (behaviors : List Behavior)
    (products : List Product) (cf mf : Nat → Nat → ℚ) (cache : Cache)
    (hmiss : cacheGet cache (uid, n) = none) :
    (get_recommendations uid n behaviors products cf mf cache).1 =
      computeRecs uid n behaviors products cf mf := by
  unfold get_recommendations
  rw [hmiss]

/-- The product ids of the computed list are the ids of a prefix of a
permutation of the candidate list. -/
theorem computeRecs_ids (uid n : Nat) (behaviors : List Behavior)
    (products : List Product) (cf mf : Nat → Nat → ℚ) :
    (computeRecs uid n behaviors products cf mf).map (·.product_id) =
      ((sortDesc Prod.snd
          (((products.filter (fun p =>
              ¬ ((behaviors.filter (fun b => b.user_id = uid)).map
                  (·.product_id)).contains p.id))).map
            (fun p => (p, (7 : ℚ) / 10 * cf uid p.id + (3 : ℚ) / 10 * mf uid p.id)))).take
        n).map (fun t => t.1.id) := by
  simp [computeRecs, List.map_map]
  rfl

/-- C1 (amended): the frontend demo path `generateAdvancedRecommendations`
takes no requested count or exclude-purchased flag and does not filter
the catalog by purchases; the engine's `get_recommendations`, on a
cache miss over a duplicate-free catalog, satisfies the claimed
contract — the returned list has length at most the requested count,
contains no two entries with the same product_id, and contains no item
the requesting user has purchased (every interacted item, purchases
included, is excluded from the candidates). -/
theorem c1_engine_contract (uid n : Nat) (behaviors : List Behavior)
    (products : List Product) (cf mf : Nat → Nat → ℚ) (cache : Cache)
    (hnodup : (products.map (·.id)).Nodup)
    (hmiss : cacheGet cache (uid, n) = none) :
    (get_recommendations uid n behaviors products cf mf cache).1.length ≤ n ∧
    ((get_recommendations uid n behaviors products cf mf cache).1.map
        (·.product_id)).Nodup ∧
    (∀ pid ∈ purchasedIds behaviors uid,
        ∀ r ∈ (get_recommendations uid n behaviors products cf mf cache).1,
          r.product_id ≠ pid) := by
  rw [get_recommendations_miss uid n behaviors products cf mf cache hmiss]
  set ip := (behaviors.filter (fun b => b.user_id = uid)).map (·.product_id) with hip
  set cand := products.filter
    (fun p => ¬ ip.contains p.id) with hcand
  set scored := cand.map
    (fun p => (p, (7 : ℚ) / 10 * cf uid p.id + (3 : ℚ) / 10 * mf uid p.id)) with hscored
  have hperm : List.Perm (sortDesc Prod.snd scored) scored := perm_sortDesc _ _
  refine ⟨?_, ?_, ?_⟩
  · simp [computeRecs]
  · rw [computeRecs_ids]
    have h3 : scored.map (fun t => t.1.id) = cand.map (·.id) := by
      simp [hscored, List.map_map]
    have h4 : (cand.map (·.id)).Nodup :=
      hnodup.sublist ((List.filter_sublist products).map _)
    have h5 : ((sortDesc Prod.snd scored).map (fun t => t.1.id)).Nodup := by
      rw [(hperm.map _).nodup_iff, h3]
      exact h4
    exact h5.sublist ((List.take_sublist n _).map _)
  · intro pid hpid r hr
    simp only [computeRecs] at hr
    rcases List.mem_map.mp hr with ⟨t, ht, hfmt⟩
    have ht1 : t ∈ sortDesc Prod.snd scored := List.mem_of_mem_take ht
    have ht2 : t ∈ scored := hperm.mem_iff.mp ht1
    rcases List.mem_map.mp ht2 with ⟨p, hp, hpt⟩
    have hpc : p ∈ cand := hp
    rw [hcand, List.mem_filter] at hpc
    have hnotin : ¬ (ip.contains p.id = true) := by
      simpa using hpc.2
    have hpid_in : pid ∈ ip := by
      rw [hip]
      rcases List.mem_map.mp hpid with ⟨b, hb, hbpid⟩
      rw [List.mem_filter] at hb
      refine List.mem_map.mpr ⟨b, ?_, hbpid⟩
      rw [List.mem_filter]
      refine ⟨hb.1, ?_⟩
      have := hb.2
      simp only [decide_eq_true_eq] at this ⊢
      exact this.1
    have hrid : r.product_id = p.id := by
      rw [← hfmt, ← hpt]
    intro hcontra
    apply hnotin
    rw [List.contains_iff_exists_mem_beq]
    refine ⟨pid, hpid_in, ?_⟩
    rw [← hrid, hcontra]
    simp

theorem c1_engine_contract_witness :
    (([{ id := 1, name := "a", category := "c", price := 0 },
        { id := 2, name := "b", category := "c", price := 0 },
        { id := 3, name := "d", category := "c", price := 0 }] :
          List Product).map (·.id)).Nodup ∧
    cacheGet [] (1, 2) = none ∧
    ((get_recommendations 1 2 [⟨1, 3, "purchase", 0⟩]
        [{ id := 1, name := "a", category := "c", price := 0 },
          { id := 2, name := "b", category := "c", price := 0 },
          { id := 3, name := "d", category := "c", price := 0 }]
        (fun _ _ => 0) (fun _ _ => 0) []).1.length ≤ 2 ∧
      ((get_recommendations 1 2 [⟨1, 3, "purchase", 0⟩]
          [{ id := 1, name := "a", category := "c", price := 0 },
            { id := 2, name := "b", category := "c", price := 0 },
            { id := 3, name := "d", category := "c", price := 0 }]
          (fun _ _ => 0) (fun _ _ => 0) []).1.map (·.product_id)).Nodup ∧
      (∀ pid ∈ purchasedIds [⟨1, 3, "purchase", 0⟩] 1,
          ∀ r ∈ (get_recommendations 1 2 [⟨1, 3, "purchase", 0⟩]
              [{ id := 1, name := "a", category := "c", price := 0 },
                { id := 2, name := "b", category := "c", price := 0 },
                { id := 3, name := "d", category := "c", price := 0 }]
              (fun _ _ => 0) (fun _ _ => 0) []).1,
            r.product_id ≠ pid)) :=
  ⟨by decide, rfl,
    c1_engine_contract 1 2 [⟨1, 3, "purchase", 0⟩] _ (fun _ _ => 0) (fun _ _ => 0) []
      (by decide) rfl⟩

/-- C2 (amended): the returned list is sorted by blended score in
descending order, and Python's sort is stable — entries with equal
scores keep the candidate list's original relative order (they are not
re-ordered by ascending item_id) — so the output is a deterministic
function of the candidate order and the scores. -/
theorem c2_ranking_sorted_and_stable (uid n : Nat) (behaviors : List Behavior)
    (products : List Product) (cf mf : Nat → Nat → ℚ) (cache : Cache)
    (hmiss : cacheGet cache (uid, n) = none) :
    ((get_recommendations uid n behaviors products cf mf cache).1.Pairwise
        (fun a b => b.confidence_score ≤ a.confidence_score)) ∧
    (∀ (l : List (Product × ℚ)) (c : ℚ),
        (sortDesc Prod.snd l).filter (fun t => decide (t.2 = c)) =
          l.filter (fun t => decide (t.2 = c))) := by
  constructor
  · rw [get_recommendations_miss uid n behaviors products cf mf cache hmiss]
    simp only [computeRecs]
    rw [List.pairwise_map]
    exact ((pairwise_sortDesc Prod.snd _).sublist (List.take_sublist n _))
  · intro l c
    exact filter_sortDesc Prod.snd l c

theorem c2_ranking_sorted_and_stable_witness :
    cacheGet [] (1, 10) = none ∧
    (((get_recommendations 1 10 [] sampleProducts
          (fun _ _ => 0) (fun _ _ => 0) []).1.Pairwise
        (fun a b => b.confidence_score ≤ a.confidence_score)) ∧
      (∀ (l : List (Product × ℚ)) (c : ℚ),
          (sortDesc Prod.snd l).filter (fun t => decide (t.2 = c)) =
            l.filter (fun t => decide (t.2 = c)))) :=
  ⟨rfl, c2_ranking_sorted_and_stable 1 10 [] sampleProducts
    (fun _ _ => 0) (fun _ _ => 0) [] rfl⟩

/-- C10: over a duplicate-free cart, `addToCart` keeps product ids
duplicate-free; on a product already present it leaves the length
unchanged and raises that product's quantity by exactly 1 (all other
products' quantities unchanged); on a new product it appends a single
entry with quantity 1. -/
theorem c10_addToCart_contract (cart : List CartItem) (p : Product)
    (hnodup : (cart.map (·.id)).Nodup) :
    (((addToCart cart p).map (·.id)).Nodup) ∧
    (p.id ∈ cart.map (·.id) →
        (addToCart cart p).length = cart.length ∧
        qtyOf (addToCart cart p) p.id = qtyOf cart p.id + 1 ∧
        ∀ j, j ≠ p.id → qtyOf (addToCart cart p) j = qtyOf cart j) ∧
    (p.id ∉ cart.map (·.id) →
        addToCart cart p =
          cart ++ [{ id := p.id, name := p.name, price := p.price, quantity := 1 }]) := by
  by_cases hmem : p.id ∈ cart.map (·.id)
  · have hfind : (cart.find? (fun item => item.id = p.id)).isSome :=
      (find?_id_isSome _ _).mpr hmem
    obtain ⟨it, hit⟩ := Option.isSome_iff_exists.mp hfind
    have haddeq : addToCart cart p = cart.map (bumpQty p.id) := by
      unfold addToCart
      rw [hit]
      rfl
    refine ⟨?_, fun _ => ⟨?_, ?_, ?_⟩, fun hn => absurd hmem hn⟩
    · rw [haddeq, map_bumpQty_id]
      exact hnodup
    · rw [haddeq, List.length_map]
    · rw [haddeq]
      exact qtyOf_bump_eq cart p.id hnodup hmem
    · intro j hj
      rw [haddeq]
      exact qtyOf_bump_ne cart p.id j hj
  · have hfind : cart.find? (fun item => item.id = p.id) = none := by
      rcases hsome : cart.find? (fun item => item.id = p.id) with _ | it
      · exact hsome
      · exact absurd ((find?_id_isSome _ _).mp (by rw [hsome]; rfl)) hmem
    have haddeq : addToCart cart p =
        cart ++ [{ id := p.id, name := p.name, price := p.price, quantity := 1 }] := by
      unfold addToCart
      rw [hfind]
    refine ⟨?_, fun hm => absurd hm hmem, fun _ => haddeq⟩
    rw [haddeq, List.map_append]
    simp [List.nodup_append, hnodup, hmem]

theorem c10_addToCart_contract_witness :
    (([⟨2, "w", 1, 3⟩] : List CartItem).map (·.id)).Nodup ∧
    ((((addToCart [⟨2, "w", 1, 3⟩] ⟨2, "w", "e", 1⟩).map (·.id)).Nodup) ∧
      ((2 : Nat) ∈ ([⟨2, "w", 1, 3⟩] : List CartItem).map (·.id) →
          (addToCart [⟨2, "w", 1, 3⟩] ⟨2, "w", "e", 1⟩).length =
            ([⟨2, "w", 1, 3⟩] : List CartItem).length ∧
          qtyOf (addToCart [⟨2, "w", 1, 3⟩] ⟨2, "w", "e", 1⟩) 2 =
            qtyOf [⟨2, "w", 1, 3⟩] 2 + 1 ∧
          ∀ j, j ≠ 2 →
            qtyOf (addToCart [⟨2, "w", 1, 3⟩] ⟨2, "w", "e", 1⟩) j =
              qtyOf [⟨2, "w", 1, 3⟩] j) ∧
      ((2 : Nat) ∉ ([⟨2, "w", 1, 3⟩] : List CartItem).map (·.id) →
          addToCart [⟨2, "w", 1, 3⟩] ⟨2, "w", "e", 1⟩ =
            [⟨2, "w", 1, 3⟩] ++ [⟨2, "w", 1, 1⟩])) :=
  ⟨by decide, c10_addToCart_contract [⟨2, "w", 1, 3⟩] ⟨2, "w", "e", 1⟩ (by decide)⟩

/-- md5 sanity: the embedded hash reproduces the RFC 1321 test
vector for "abc". -/
theorem md5Hex_abc : md5Hex (strBytes "abc") = "900150983cd24fb0d6963f7d28e17f72" := by
  decide

/-- C3: weight(u,i) sums decayed base weights over all of u's
interactions with i — appending further interactions adds their
decayed weights instead of overwriting — and on the spec scenario
[(u=1,i=10,view,t0),(u=1,i=10,like,t0+1s)] with view=1, like=2 and
λ=0 the feature weight weight(1,10) is 3. -/
theorem c3_feature_weight_sums_decayed :
    (∀ (d now : ℝ) (l1 l2 : List Behavior) (u i : Nat),
        featureWeight d now (l1 ++ l2) u i =
          featureWeight d now l1 u i + featureWeight d now l2 u i) ∧
    featureWeight 0 1 [⟨1, 10, "view", 0⟩, ⟨1, 10, "like", 1⟩] 1 10 = 3 := by
  constructor
  · intro d now l1 l2 u i
    simp [featureWeight, List.filter_append]
  · simp [featureWeight, apply_time_decay, score_map, List.filter]
    norm_num

/-- C4 (amended): variant assignment is a pure deterministic function
of (user_id, experiment_name) — md5 of the key string taken modulo 2 —
so repeated calls resolve to the same variant, always one of the two
hard-coded variants "A"/"B"; no traffic_allocation is consulted. -/
theorem c4_assignment_deterministic (u : Nat) (e : String) (c1 c2 : Nat) :
    assignOnCall c1 u e = assignOnCall c2 u e ∧
    (assign_user_to_variant u e = "A" ∨ assign_user_to_variant u e = "B") := by
  refine ⟨rfl, ?_⟩
  unfold assign_user_to_variant
  by_cases h : md5Int (strBytes (toString u ++ "_" ++ e)) % 2 = 0 <;> simp [h]

set_option maxRecDepth 100000 in
/-- C4 counterexample: the claim's mechanism — mapping the hash into
cumulative traffic_allocation buckets — is absent from the code. An
experiment allocating 100% of traffic to variant "A" must assign "A"
to every user under the spec's bucket mapping, yet the source assigns
user 3 in experiment "checkout_test" to "B". -/
theorem c4_counterexample :
    assign_user_to_variant 3 "checkout_test" = "B" ∧
    specAssignVariant [("A", 1)] 3 "checkout_test" = "A" ∧
    ("B" : String) ≠ "A" := by
  refine ⟨by decide, ?_, by decide⟩
  have h : md5Int (strBytes (toString 3 ++ "_" ++ "checkout_test")) % 10000 = 3609 := by
    decide
  simp [specAssignVariant, h, bucketAssign]
  norm_num

/-- C5: training is a deterministic function of the input triples and
the random seed — two runs on identical data with identical seeds
produce identical user-factor and item-factor values. -/
theorem c5_training_deterministic (d1 d2 : List (Nat × Nat × ℚ)) (s1 s2 : Nat)
    (n_users n_items n_factors epochs : Nat) (lr reg : ℚ)
    (hd : d1 = d2) (hs : s1 = s2) :
    (MatrixFactorizationModel.fit d1 s1 n_users n_items n_factors epochs lr reg).user_factors =
      (MatrixFactorizationModel.fit d2 s2 n_users n_items n_factors epochs lr reg).user_factors ∧
    (MatrixFactorizationModel.fit d1 s1 n_users n_items n_factors epochs lr reg).item_factors =
      (MatrixFactorizationModel.fit d2 s2 n_users n_items n_factors epochs lr reg).item_factors := by
  subst hd
  subst hs
  exact ⟨rfl, rfl⟩

theorem c5_training_deterministic_witness :
    [((0 : Nat), (0 : Nat), (1 : ℚ))] = [((0 : Nat), (0 : Nat), (1 : ℚ))] ∧
    (42 : Nat) = 42 ∧
    ((MatrixFactorizationModel.fit [(0, 0, 1)] 42 2 2 2 3 (1/100) (1/50)).user_factors =
        (MatrixFactorizationModel.fit [(0, 0, 1)] 42 2 2 2 3 (1/100) (1/50)).user_factors ∧
      (MatrixFactorizationModel.fit [(0, 0, 1)] 42 2 2 2 3 (1/100) (1/50)).item_factors =
        (MatrixFactorizationModel.fit [(0, 0, 1)] 42 2 2 2 3 (1/100) (1/50)).item_factors) :=
  ⟨rfl, rfl, c5_training_deterministic _ _ _ _ 2 2 2 3 (1/100) (1/50) rfl rfl⟩

/-- C6: recording an interaction for a user invalidates every cache
entry keyed to that user_id — for every requested count the lookup
misses afterwards — so the next `get_recommendations` call for that
user computes a fresh result over the log that includes the new
interaction. -/
theorem c6_interaction_invalidates_user_cache (s : EngineState) (b : Behavior)
    (n : Nat) (products : List Product) (cf mf : Nat → Nat → ℚ) :
    cacheGet (record_interaction s b).cache (b.user_id, n) = none ∧
    (get_recommendations b.user_id n (record_interaction s b).behaviors products cf mf
        (record_interaction s b).cache).1 =
      computeRecs b.user_id n (s.behaviors ++ [b]) products cf mf := by
  have hnone : cacheGet (record_interaction s b).cache (b.user_id, n) = none := by
    simp only [record_interaction, cacheGet, Option.map_eq_none']
    rw [List.find?_eq_none]
    intro e he
    rw [List.mem_filter] at he
    simp only [decide_eq_true_eq] at he ⊢
    intro h1
    exact absurd (congrArg Prod.fst h1) (by simpa using he.2)
  refine ⟨hnone, ?_⟩
  unfold get_recommendations
  rw [hnone]
  simp [record_interaction]

/-- C7 counterexample: "share" is not in the interaction-weight table,
yet recording it succeeds — the frontend appends it to the behavior
log and the interaction endpoint replies created and stores it; no
ValidationError occurs for the unknown type. -/
theorem c7_counterexample :
    score_map "share" = none ∧
    recordAdvancedInteraction (some 1) [] 3 "share" 5 =
      [{ user_id := 1, product_id := 3, interaction_type := "share", timestamp := 5 }] ∧
    interactionPost (some 1) (some 3) (some "share") [] =
      (HttpReply.created "Interaction recorded successfully",
        [{ user_id := 1, product_id := 3, interaction_type := "share", timestamp := 0 }]) := by
  refine ⟨rfl, rfl, by decide⟩

/-- C7 (amended): recording an interaction never validates the type
against the weight table. The frontend appends the interaction for any
type string whenever a user is logged in (and drops it otherwise); the
interaction endpoint checks only that user_id, product_id and
interaction_type are present and truthy, replying 400 when one is
missing and created — with the row stored — for any type value. -/
theorem c7_no_type_validation (behaviors store : List Behavior) (uid pid ts : Nat)
    (ty : String) (hu : uid ≠ 0) (hp : pid ≠ 0) (ht : ty ≠ "") :
    recordAdvancedInteraction (some uid) behaviors pid ty ts =
      behaviors ++ [⟨uid, pid, ty, ts⟩] ∧
    recordAdvancedInteraction none behaviors pid ty ts = behaviors ∧
    interactionPost (some uid) (some pid) (some ty) store =
      (HttpReply.created "Interaction recorded successfully", store ++ [⟨uid, pid, ty, 0⟩]) ∧
    interactionPost none (some pid) (some ty) store =
      (HttpReply.badRequest "user_id, product_id, and interaction_type are required",
        store) := by
  refine ⟨rfl, rfl, ?_, rfl⟩
  simp [interactionPost, hu, hp, ht]

theorem c7_no_type_validation_witness :
    (1 : Nat) ≠ 0 ∧ (3 : Nat) ≠ 0 ∧ ("share" : String) ≠ "" ∧
    (recordAdvancedInteraction (some 1) [] 3 "share" 5 =
        [] ++ [⟨1, 3, "share", 5⟩] ∧
      recordAdvancedInteraction none [] 3 "share" 5 = [] ∧
      interactionPost (some 1) (some 3) (some "share") [] =
        (HttpReply.created "Interaction recorded successfully", [] ++ [⟨1, 3, "share", 0⟩]) ∧
      interactionPost none (some 3) (some "share") [] =
        (HttpReply.badRequest "user_id, product_id, and interaction_type are required",
          [])) :=
  ⟨by decide, by decide, by decide,
    c7_no_type_validation [] [] 1 3 5 "share" (by decide) (by decide) (by decide)⟩

/-- C1 counterexample: the cited frontend recommendation path includes
items the user has purchased — user 1 has purchased product 1, yet
`generateAdvancedRecommendations` still lists product 1 (it slices the
catalog without consulting the behavior log, and takes no requested
count or exclude-purchased flag). -/
theorem c1_counterexample :
    1 ∈ purchasedIds [⟨1, 1, "purchase", 0⟩] 1 ∧
    1 ∈ (generateAdvancedRecommendations sampleProducts (fun _ => 1)).map
          (fun t => t.1.id) := by
  decide

/-- C2 counterexample: equal blended scores are not tie-broken by
ascending item_id — with candidates listed as ids [2, 1] and all
scores equal, the engine returns ids in order [2, 1] (Python's stable
sort keeps candidate order), not the claimed ascending [1, 2]. -/
theorem c2_counterexample :
    ((get_recommendations 1 10 []
        [{ id := 2, name := "b", category := "c", price := 0 },
          { id := 1, name := "a", category := "c", price := 0 }]
        (fun _ _ => 0) (fun _ _ => 0) []).1.map (fun r => r.product_id) = [2, 1]) ∧
    ((get_recommendations 1 10 []
        [{ id := 2, name := "b", category := "c", price := 0 },
          { id := 1, name := "a", category := "c", price := 0 }]
        (fun _ _ => 0) (fun _ _ => 0) []).1.map (fun r => r.confidence_score) = [0, 0]) ∧
    ([2, 1] : List Nat) ≠ [1, 2] := by
  refine ⟨?_, ?_, by decide⟩ <;>
    norm_num [get_recommendations, cacheGet, computeRecs, sortDesc, insertDesc]

/-- C8 counterexample: `ApiService.request` propagates failures to its
caller instead of degrading — a 500 response produces a thrown
`HTTP error! status: 500`, not a popularity-ranked list. -/
theorem c8_counterexample :
    ApiService.request (FetchOutcome.success false 500 fallbackResult) =
      Except.error "HTTP error! status: 500" := by
  rfl

/-- C8 (amended): `ApiService.request` returns the parsed body only
for an ok response; a non-ok response is rethrown as
`HTTP error! status: ...` and a network failure is logged and
rethrown — both failure modes reach the caller as errors rather than
degrading to a popularity-ranked list. -/
theorem c8_request_propagates_failures :
    (∀ (status : Nat) (body : SearchResult),
        ApiService.request (FetchOutcome.success true status body) = Except.ok body) ∧
    (∀ (status : Nat) (body : SearchResult),
        ApiService.request (FetchOutcome.success false status body) =
          Except.error ("HTTP error! status: " ++ toString status)) ∧
    (∀ msg : String,
        ApiService.request (FetchOutcome.networkError (β := SearchResult) msg) =
          Except.error msg) :=
  ⟨fun _ _ => rfl, fun _ _ => rfl, fun _ => rfl⟩

/-- C9: `getAllProducts` never propagates an error — on any non-ok
response or network failure it returns the fixed fallback payload of
exactly 5 sample products with count 5, and on success it forwards
the search result unchanged. -/
theorem c9_getAllProducts_never_fails :
    (∀ (status : Nat) (r : SearchResult),
        ApiService.getAllProducts (FetchOutcome.success true status r) = r) ∧
    (∀ (status : Nat) (r : SearchResult),
        ApiService.getAllProducts (FetchOutcome.success false status r) = fallbackResult) ∧
    (∀ msg : String, ApiService.getAllProducts (FetchOutcome.networkError msg) = fallbackResult) ∧
    fallbackResult.products.length = 5 ∧ fallbackResult.count = 5 :=
  ⟨fun _ _ => rfl, fun _ _ => rfl, fun _ => rfl, rfl, rfl⟩

end RecEngine
